import Mathlib

/-!
Verification development for the automail browser extension
(`src/extension/background.js`, a concatenation of the background script,
the content script, the floating-widget content script, the iframe script
and the popup script).

The JavaScript is shallowly embedded: each script-level function becomes a
Lean function over explicit state; timers (`setTimeout`) become explicit
event-time lists or pending-counter fields; `chrome.storage.local.set`
calls become an ordered list of `StorageWrite`s; `sendResponse` calls
become an ordered list of `AckResponse`s; the DOM is abstracted to the
fields the embedded functions actually query.
-/

namespace Automail

/-! ## Background script: `updateSummaryState` and the `summarizeEmail` handler -/

/-- One call to `updateSummaryState(status, content)`: a wholesale overwrite of
the persisted keys `summaryStatus` and `emailSummary`. -/
structure StorageWrite where
  status : String
  payload : String
  deriving DecidableEq, Repr

/-- One call to `sendResponse(...)` in the `onMessage` listener. -/
structure AckResponse where
  status : String
  message : String
  deriving DecidableEq, Repr

/-- Outcome of the `fetch` to the backend: either an HTTP response (any status
code, with its body text) or a transport-level failure whose `Error` carries
the given message. -/
inductive BackendOutcome where
  | response (code : Nat) (body : String)
  | failure (msg : String)
  deriving DecidableEq, Repr

/-- JavaScript `response.ok`: the status code lies in 200..299. -/
def respOk (code : Nat) : Bool := 200 ≤ code && code ≤ 299

/-- JavaScript truthiness of `request.content`: `undefined`/`null` (modelled as
`none`) and the empty string are falsy. -/
def contentTruthy : Option String → Bool
  | none => false
  | some s => !(s == "")

/-- The `.then`/`.catch` chain after `fetch(backendUrl, ...)` resolves
(background.js lines 53-72), as the single storage write it performs.
A non-ok response has its body text read, wrapped into
`Backend responded with ... Details: ...`, thrown, and re-wrapped by the
`catch` into `Summarization Failed: Error during backend call: ...`; an ok
response stores `summaryText or else the placeholder` under status
`success`; a transport failure takes the `catch` path with the error
message. -/
def summarizeFetchWrite (b : BackendOutcome) : StorageWrite :=
  match b with
  | .response code body =>
    if respOk code then
      { status := "success"
        payload := if body = "" then "Backend returned empty summary." else body }
    else
      { status := "error"
        payload := "Summarization Failed: Error during backend call: Backend responded with "
          ++ toString code ++ ". Details: " ++ body }
  | .failure msg =>
    { status := "error"
      payload := "Summarization Failed: Error during backend call: " ++ msg }

/-- The `chrome.runtime.onMessage` listener on a `summarizeEmail` request
(background.js lines 23-77), returning the ordered list of storage writes it
performs and the ordered list of `sendResponse` acknowledgements it sends.
`content` is the request's `content` field (`none` when absent); `b` is how
the backend call turns out. When `content` is falsy the handler writes an
error state and acknowledges with status `error`, without any loading write;
otherwise it writes `loading`, acknowledges with `processing`, and the fetch
chain later appends its single write. -/
def handleSummarizeEmail (content : Option String) (b : BackendOutcome) :
    List StorageWrite × List AckResponse :=
  if contentTruthy content then
    ([ { status := "loading", payload := "Sending content to backend..." },
       summarizeFetchWrite b ],
     [ { status := "processing", message := "Summarization request sent to backend." } ])
  else
    ([ { status := "error", payload := "Error: No content provided by content script." } ],
     [ { status := "error", message := "No content provided" } ])

/-! ## Content script: `addSummarizeButton` and its retry guard -/

/-- The content-script state `addSummarizeButton` reads and writes:
`buttonCount` is the number of injected summarize buttons in the document
(`document.getElementById(BUTTON_ID)` is non-null iff it is nonzero);
`anchorPresent` is whether `document.querySelector` finds the toolbar
insertion point; `retried` is the global re-entrancy flag
`window.addSummarizeButtonRetried`; `pending` counts scheduled
`setTimeout(addSummarizeButton, 500)` retries not yet fired; `scheduled`
counts every `setTimeout` call ever made (for bookkeeping of how many
retries were scheduled in a run). -/
structure CSState where
  buttonCount : Nat
  anchorPresent : Bool
  retried : Bool
  pending : Nat
  scheduled : Nat
  deriving DecidableEq, Repr

/-- One call of `addSummarizeButton()` (background.js lines 106-197): return
unchanged if the button already exists; else if the insertion anchor is
missing, either schedule a 500ms retry and set the guard flag (flag clear)
or clear the guard flag and schedule nothing (flag set); else clear the
flag and insert the button before the anchor. -/
def addSummarizeButton (s : CSState) : CSState :=
  if s.buttonCount ≠ 0 then s
  else if !s.anchorPresent then
    if !s.retried then
      { s with retried := true, pending := s.pending + 1, scheduled := s.scheduled + 1 }
    else
      { s with retried := false }
  else
    { s with retried := false, buttonCount := s.buttonCount + 1 }

/-- Events acting on the content-script state: a direct `addSummarizeButton`
call (initial load or debounced mutation signal), a scheduled retry firing,
the host page adding/removing the toolbar anchor, and the host page
removing the injected button (Gmail re-rendering the view). -/
inductive DomEvent where
  | reconcile
  | timerFire
  | setAnchor (b : Bool)
  | removeButton
  deriving DecidableEq, Repr

/-- Effect of one event on the content-script state. A `timerFire` consumes one
pending retry and runs `addSummarizeButton`; it is a no-op when nothing is
pending. -/
def stepEvent (e : DomEvent) (s : CSState) : CSState :=
  match e with
  | .reconcile => addSummarizeButton s
  | .timerFire =>
      if s.pending = 0 then s
      else addSummarizeButton { s with pending := s.pending - 1 }
  | .setAnchor b => { s with anchorPresent := b }
  | .removeButton => { s with buttonCount := 0 }

/-- Run a sequence of events from a state. -/
def runEvents (s : CSState) (es : List DomEvent) : CSState :=
  es.foldl (fun t e => stepEvent e t) s

/-- The content-script state on a fresh host document with the anchor not yet
rendered: no button, no retry flag, no pending timer. -/
def initCS : CSState :=
  { buttonCount := 0, anchorPresent := false, retried := false, pending := 0, scheduled := 0 }

/-! ## Content script: the debounce wrapper -/

/-- Timer semantics of the closure returned by
`debounceAddSummarizeButton(func, wait)` (background.js lines 213-223),
processing calls at the given (sorted) arrival times: each call clears any
pending timeout and schedules a new one `wait` later; a pending timeout
whose due time lies strictly before the next call fires first. The first
argument of `go` is the due time of the pending timeout, if any. The result
is the list of times at which `func` actually runs. -/
def debounceGo (wait : Nat) : Option Nat → List Nat → List Nat
  | none, [] => []
  | some f, [] => [f]
  | none, t :: ts => debounceGo wait (some (t + wait)) ts
  | some f, t :: ts =>
      if f < t then f :: debounceGo wait (some (t + wait)) ts
      else debounceGo wait (some (t + wait)) ts

/-- The invocation times of the debounced function for a sorted list of call
times, starting with no timer pending. -/
def debounceRun (wait : Nat) (ts : List Nat) : List Nat :=
  debounceGo wait none ts

/-! ## Floating-widget content script: `getGmailInfo` and the auto-refresh observer -/

/-- The properties of a DOM element that `getGmailInfo` reads. -/
structure DomElement where
  textContent : String
  title : String
  innerText : String
  deriving DecidableEq, Repr

/-- The part of the host document `getGmailInfo` queries: the location hash and
the first match (if any) of each of its four fixed selectors `.gD`,
`span.g3`, `h2.hP`, `.a3s`. -/
structure GmailDom where
  locationHash : String
  queryGD : Option DomElement
  queryG3 : Option DomElement
  queryHP : Option DomElement
  queryA3s : Option DomElement
  deriving DecidableEq, Repr

/-- JavaScript `a || b` on strings: the empty string is falsy. -/
def jsOr (a b : String) : String := if a = "" then b else a

/-- The snapshot `getGmailInfo` returns. -/
structure GmailInfo where
  page : String
  sender : String
  date : String
  subject : String
  body : String
  deriving DecidableEq, Repr

/-- The function `getGmailInfo()` (background.js lines 356-371): `page` is
`singleEmail` when the hash contains a slash, else `list`; on a single-email
page each field comes from its selector's first match, trimmed, with the
empty string on a miss; on a list page all fields are empty. Totality of
this definition mirrors the source: every selector miss is handled by a
null check, so the function never throws. -/
def getGmailInfo (dom : GmailDom) : GmailInfo :=
  let page := if dom.locationHash.contains '/' then "singleEmail" else "list"
  if page = "singleEmail" then
    { page := page
      sender := match dom.queryGD with
        | some e => e.textContent.trim
        | none => ""
      date := match dom.queryG3 with
        | some e => (jsOr e.title e.textContent).trim
        | none => ""
      subject := match dom.queryHP with
        | some e => e.textContent.trim
        | none => ""
      body := match dom.queryA3s with
        | some e => (jsOr (jsOr e.innerText e.textContent) "").trim
        | none => "" }
  else
    { page := page, sender := "", date := "", subject := "", body := "" }

/-- The function `infoChanged(newInfo)` (background.js lines 339-342): true
when nothing was pushed yet, else true iff `subject`, `date` or `body`
differs from the last pushed snapshot. Neither `page` nor `sender` is
compared. -/
def infoChanged (lastInfo : Option GmailInfo) (newInfo : GmailInfo) : Bool :=
  match lastInfo with
  | none => true
  | some l => newInfo.subject != l.subject || newInfo.date != l.date || newInfo.body != l.body

/-- One firing of the floating-widget `MutationObserver` callback
(background.js lines 343-352): when the iframe exists and is visible, a
fresh snapshot is extracted and, if `infoChanged` holds, pushed via
`postMessage` and remembered as `lastInfo`. Returns the new `lastInfo` and
whether a push happened. -/
def autoRefreshStep (iframeVisible : Bool) (lastInfo : Option GmailInfo)
    (info : GmailInfo) : Option GmailInfo × Bool :=
  if iframeVisible then
    if infoChanged lastInfo info then (some info, true) else (lastInfo, false)
  else
    (lastInfo, false)

/-! ## Theorems -/

/-- Helper: the fetch chain's single write always has status `success` or
`error`. -/
theorem summarizeFetchWrite_status (b : BackendOutcome) :
    (summarizeFetchWrite b).status = "success" ∨ (summarizeFetchWrite b).status = "error" := by
  cases b with
  | response code body =>
      by_cases h : respOk code = true
      · left; simp [summarizeFetchWrite, h]
      · right; simp [summarizeFetchWrite, h]
  | failure msg => right; rfl

/-- C1 counterexample: a `summarizeEmail` request whose `content` field is
absent makes the handler write status `error` as its only storage write,
with no preceding `loading` write — so the write sequence is neither
Loading→Success nor Loading→Error. -/
theorem summarize_missing_content_skips_loading :
    (handleSummarizeEmail none (.response 200 "ok")).1.map StorageWrite.status = ["error"] ∧
    (["error"] : List String) ≠ ["loading", "success"] ∧
    (["error"] : List String) ≠ ["loading", "error"] :=
  ⟨rfl, by decide, by decide⟩

/-- C1 amended: for a request with truthy content the persisted status
sequence is exactly Loading→Success or Loading→Error; for a request with
absent or empty content the handler writes a single `error` status with no
preceding `loading` write. -/
theorem summaryState_write_sequences (content : Option String) (b : BackendOutcome) :
    (contentTruthy content = true ∧
      ((handleSummarizeEmail content b).1.map StorageWrite.status = ["loading", "success"] ∨
       (handleSummarizeEmail content b).1.map StorageWrite.status = ["loading", "error"])) ∨
    (contentTruthy content = false ∧
      (handleSummarizeEmail content b).1.map StorageWrite.status = ["error"]) := by
  cases hc : contentTruthy content with
  | false =>
      right
      exact ⟨rfl, by simp [handleSummarizeEmail, hc]⟩
  | true =>
      left
      refine ⟨rfl, ?_⟩
      rcases summarizeFetchWrite_status b with h | h
      · left; simp [handleSummarizeEmail, hc, h]
      · right; simp [handleSummarizeEmail, hc, h]

/-- C5 counterexample: a 2xx response whose body text is empty is persisted
with the fixed placeholder payload, not with the raw (empty) body text
verbatim. -/
theorem success_empty_body_not_verbatim :
    (handleSummarizeEmail (some "email text") (.response 200 "")).1 =
      [ { status := "loading", payload := "Sending content to backend..." },
        { status := "success", payload := "Backend returned empty summary." } ] ∧
    ("Backend returned empty summary." : String) ≠ "" :=
  ⟨rfl, by decide⟩

/-- C5 amended: for truthy content, a 2xx response with nonempty body text is
persisted as status `success` with the raw body text verbatim; a 2xx
response with empty body is persisted with the placeholder instead. -/
theorem success_nonempty_body_verbatim (content : Option String) (code : Nat) (body : String)
    (hc : contentTruthy content = true) (hok : respOk code = true) (hb : body ≠ "") :
    (handleSummarizeEmail content (.response code body)).1 =
      [ { status := "loading", payload := "Sending content to backend..." },
        { status := "success", payload := body } ] := by
  simp [handleSummarizeEmail, hc, summarizeFetchWrite, hok, hb]

/-- C5 witness: end-to-end scenario 1 — a 200 response with body
`Hello summary` persists exactly that payload under status `success`. -/
theorem success_nonempty_body_verbatim_witness :
    contentTruthy (some "<p>Hi</p>") = true ∧ respOk 200 = true ∧
    ("Hello summary" : String) ≠ "" ∧
    (handleSummarizeEmail (some "<p>Hi</p>") (.response 200 "Hello summary")).1 =
      [ { status := "loading", payload := "Sending content to backend..." },
        { status := "success", payload := "Hello summary" } ] :=
  ⟨by decide, by decide, by decide,
    success_nonempty_body_verbatim (some "<p>Hi</p>") 200 "Hello summary"
      (by decide) (by decide) (by decide)⟩

/-- C6: for truthy content, a non-2xx response is persisted as status `error`
with the exact error string, whose shape exhibits the decimal status code
and the response body text as substrings. -/
theorem error_payload_contains_status_and_body (content : Option String) (code : Nat)
    (body : String) (hc : contentTruthy content = true) (hok : respOk code = false) :
    (handleSummarizeEmail content (.response code body)).1 =
      [ { status := "loading", payload := "Sending content to backend..." },
        { status := "error",
          payload := "Summarization Failed: Error during backend call: Backend responded with "
            ++ toString code ++ ". Details: " ++ body } ] ∧
    (∃ pre mid, (summarizeFetchWrite (.response code body)).payload =
        pre ++ toString code ++ mid ++ body) := by
  constructor
  · simp [handleSummarizeEmail, hc, summarizeFetchWrite, hok]
  · exact ⟨"Summarization Failed: Error during backend call: Backend responded with ",
      ". Details: ", by simp [summarizeFetchWrite, hok]⟩

/-- C6 witness: end-to-end scenario 2 — a 503 response with body `overloaded`
persists an error payload containing `503` and `overloaded`. -/
theorem error_payload_contains_status_and_body_witness :
    contentTruthy (some "c") = true ∧ respOk 503 = false ∧
    (handleSummarizeEmail (some "c") (.response 503 "overloaded")).1 =
      [ { status := "loading", payload := "Sending content to backend..." },
        { status := "error",
          payload := "Summarization Failed: Error during backend call: Backend responded with 503. Details: overloaded" } ] := by
  refine ⟨by decide, by decide, ?_⟩
  have h := (error_payload_contains_status_and_body (some "c") 503 "overloaded"
    (by decide) (by decide)).1
  rw [h]; decide

/-- C9: every `summarizeEmail` request is acknowledged by exactly one
immediate `sendResponse`, with status `error` when content is falsy and
`processing` otherwise, and the acknowledgement does not depend on how the
backend call turns out — the final outcome reaches only the storage
writes. -/
theorem summarize_single_immediate_ack (content : Option String) (b b' : BackendOutcome) :
    (handleSummarizeEmail content b).2.length = 1 ∧
    (handleSummarizeEmail content b).2 =
      (if contentTruthy content then
        [ { status := "processing", message := "Summarization request sent to backend." } ]
       else
        [ { status := "error", message := "No content provided" } ]) ∧
    (handleSummarizeEmail content b).2 = (handleSummarizeEmail content b').2 := by
  cases h : contentTruthy content <;> simp [handleSummarizeEmail, h]

/-- C10: for truthy content, a 2xx response with empty body text persists
status `success` with the fixed placeholder payload. -/
theorem success_empty_body_placeholder (content : Option String) (code : Nat)
    (hc : contentTruthy content = true) (hok : respOk code = true) :
    (handleSummarizeEmail content (.response code "")).1 =
      [ { status := "loading", payload := "Sending content to backend..." },
        { status := "success", payload := "Backend returned empty summary." } ] := by
  simp [handleSummarizeEmail, hc, summarizeFetchWrite, hok]

/-- C10 witness: a concrete 200-with-empty-body run. -/
theorem success_empty_body_placeholder_witness :
    contentTruthy (some "email") = true ∧ respOk 200 = true ∧
    (handleSummarizeEmail (some "email") (.response 200 "")).1 =
      [ { status := "loading", payload := "Sending content to backend..." },
        { status := "success", payload := "Backend returned empty summary." } ] :=
  ⟨by decide, by decide,
    success_empty_body_placeholder (some "email") 200 (by decide) (by decide)⟩

/-- Helper: one `addSummarizeButton` call preserves the at-most-one-button
bound. -/
theorem addSummarizeButton_count_le (s : CSState) (h : s.buttonCount ≤ 1) :
    (addSummarizeButton s).buttonCount ≤ 1 := by
  by_cases h1 : s.buttonCount ≠ 0
  · simpa [addSummarizeButton, h1] using h
  · push_neg at h1
    cases ha : s.anchorPresent with
    | false =>
        cases hr : s.retried <;> simp [addSummarizeButton, h1, ha, hr]
    | true => simp [addSummarizeButton, h1, ha]

/-- Helper: every event preserves the at-most-one-button bound. -/
theorem stepEvent_count_le (e : DomEvent) (s : CSState) (h : s.buttonCount ≤ 1) :
    (stepEvent e s).buttonCount ≤ 1 := by
  cases e with
  | reconcile => exact addSummarizeButton_count_le s h
  | timerFire =>
      by_cases hp : s.pending = 0
      · simpa [stepEvent, hp] using h
      · simpa [stepEvent, hp] using addSummarizeButton_count_le { s with pending := s.pending - 1 } h
  | setAnchor b => simpa [stepEvent] using h
  | removeButton => simp [stepEvent]

/-- Helper: event sequences preserve the at-most-one-button bound. -/
theorem runEvents_count_le (s : CSState) (es : List DomEvent) (h : s.buttonCount ≤ 1) :
    (runEvents s es).buttonCount ≤ 1 := by
  induction es generalizing s with
  | nil => exact h
  | cons e es ih =>
      have h1 : runEvents s (e :: es) = runEvents (stepEvent e s) es := rfl
      rw [h1]
      exact ih (stepEvent e s) (stepEvent_count_le e s h)

/-- C2: calling `addSummarizeButton` when the button already exists returns
the state entirely unchanged (the early `getElementById` guard), and from
any state with at most one button — in particular the fresh document —
every sequence of reconcile calls, retry firings and host-page changes
leaves at most one injected button in the document. -/
theorem addSummarizeButton_idempotent_unique :
    (∀ s : CSState, s.buttonCount ≠ 0 → addSummarizeButton s = s) ∧
    (∀ (s : CSState) (es : List DomEvent), s.buttonCount ≤ 1 →
      (runEvents s es).buttonCount ≤ 1) := by
  constructor
  · intro s h
    simp [addSummarizeButton, h]
  · intro s es h
    exact runEvents_count_le s es h

/-- C2 witness: the no-op on a state that already holds the button, and the
bound along a concrete event run from the fresh document. -/
theorem addSummarizeButton_idempotent_unique_witness :
    addSummarizeButton ⟨1, true, false, 0, 0⟩ = (⟨1, true, false, 0, 0⟩ : CSState) ∧
    (runEvents initCS [.setAnchor true, .reconcile, .reconcile, .removeButton,
        .reconcile]).buttonCount ≤ 1 :=
  ⟨addSummarizeButton_idempotent_unique.1 ⟨1, true, false, 0, 0⟩ (by decide),
   addSummarizeButton_idempotent_unique.2 initCS
      [.setAnchor true, .reconcile, .reconcile, .removeButton, .reconcile] (by decide)⟩

/-- C3 counterexample: with the anchor absent throughout, three reconcile
calls arriving before any retry fires schedule two retries in total — the
second additional call re-arms the toggled guard flag, so additional calls
while a retry is pending can schedule further retries, contradicting the
claimed at-most-one schedule. -/
theorem retry_guard_double_schedule :
    (runEvents initCS [.reconcile, .reconcile, .reconcile]).scheduled = 2 ∧ ¬(2 ≤ 1) :=
  ⟨by decide, by decide⟩

/-- C3 amended: when the anchor is absent the guard flag toggles — a call with
the flag clear sets it and schedules exactly one 500ms retry, a call (or
retry firing) with the flag set clears it and schedules nothing, so one
additional call during a pending retry schedules no further retry but a
second additional call does; a lone failing call whose retry also fails
gives up silently with exactly one retry ever scheduled and none pending. -/
theorem retry_schedule_toggles (s : CSState)
    (hb : s.buttonCount = 0) (ha : s.anchorPresent = false) :
    (s.retried = false →
      addSummarizeButton s =
        { s with retried := true, pending := s.pending + 1, scheduled := s.scheduled + 1 }) ∧
    (s.retried = true → addSummarizeButton s = { s with retried := false }) ∧
    runEvents initCS [.reconcile, .timerFire] =
      { buttonCount := 0, anchorPresent := false, retried := false,
        pending := 0, scheduled := 1 } := by
  refine ⟨?_, ?_, by decide⟩
  · intro hr
    simp [addSummarizeButton, hb, ha, hr]
  · intro hr
    simp [addSummarizeButton, hb, ha, hr]

/-- C3 witness: the toggle behaviour evaluated on the fresh document state and
on the state left by the first failing call. -/
theorem retry_schedule_toggles_witness :
    addSummarizeButton initCS = (⟨0, false, true, 1, 1⟩ : CSState) ∧
    addSummarizeButton ⟨0, false, true, 0, 1⟩ = (⟨0, false, false, 0, 1⟩ : CSState) :=
  ⟨(retry_schedule_toggles initCS (by decide) (by decide)).1 rfl,
   ((retry_schedule_toggles ⟨0, false, true, 0, 1⟩ (by decide) (by decide)).2.1) rfl⟩

/-- Helper: with a timer pending for the head call, a chain of calls each
within `wait` of the previous keeps cancelling the pending timer, and the
only firing is `wait` after the last call. -/
theorem debounceGo_chain (wait : Nat) (t : Nat) (ts : List Nat)
    (h : List.Chain' (fun a b => a ≤ b ∧ b ≤ a + wait) (t :: ts)) :
    debounceGo wait (some (t + wait)) ts = [(t :: ts).getLast (List.cons_ne_nil t ts) + wait] := by
  induction ts generalizing t with
  | nil => rfl
  | cons u us ih =>
      rcases List.chain'_cons.mp h with ⟨⟨htu, hut⟩, h2⟩
      have hnlt : ¬(t + wait < u) := by omega
      have hgl : (t :: u :: us).getLast (List.cons_ne_nil t (u :: us)) =
          (u :: us).getLast (List.cons_ne_nil u us) := List.getLast_cons (List.cons_ne_nil u us)
      rw [hgl, ← ih u h2]
      simp [debounceGo, hnlt]

/-- C4: a burst of one or more mutation signals, each arriving within 500ms of
the previous one, makes the debounced wrapper invoke the underlying
function exactly once, at 500ms after the last signal — that is, only once
500ms elapse with no further signal. -/
theorem debounce_coalesces_burst (ts : List Nat) (h1 : ts ≠ [])
    (h2 : List.Chain' (fun a b => a ≤ b ∧ b ≤ a + 500) ts) :
    debounceRun 500 ts = [ts.getLast h1 + 500] := by
  cases ts with
  | nil => exact absurd rfl h1
  | cons t ts => exact debounceGo_chain 500 t ts h2

/-- C4 witness: three signals at 0, 100 and 550 (gaps 100 and 450, both within
the 500ms window) produce one invocation, at time 1050. -/
theorem debounce_coalesces_burst_witness :
    ([0, 100, 550] : List Nat) ≠ [] ∧
    List.Chain' (fun a b => a ≤ b ∧ b ≤ a + 500) [0, 100, 550] ∧
    debounceRun 500 [0, 100, 550] = [1050] := by
  refine ⟨by decide, ?_, ?_⟩
  · simp [List.chain'_cons]
  · have h := debounce_coalesces_burst [0, 100, 550] (by decide)
      (by simp [List.chain'_cons])
    simpa using h

/-- C7: `getGmailInfo` is total (it never throws) and when every one of its
four selectors matches zero elements, every string field of the returned
snapshot — sender, date, subject and body — is the empty string, for every
location hash. -/
theorem getGmailInfo_all_miss_empty_fields (hash : String) :
    (getGmailInfo ⟨hash, none, none, none, none⟩).sender = "" ∧
    (getGmailInfo ⟨hash, none, none, none, none⟩).date = "" ∧
    (getGmailInfo ⟨hash, none, none, none, none⟩).subject = "" ∧
    (getGmailInfo ⟨hash, none, none, none, none⟩).body = "" := by
  by_cases h : hash.contains '/' = true <;> simp [getGmailInfo, h]

/-- Helper: the auto-refresh callback pushes exactly when the iframe is
visible and `infoChanged` holds. -/
theorem autoRefreshStep_snd (vis : Bool) (li : Option GmailInfo) (n : GmailInfo) :
    (autoRefreshStep vis li n).2 = (vis && infoChanged li n) := by
  cases vis with
  | false => simp [autoRefreshStep]
  | true => cases h : infoChanged li n <;> simp [autoRefreshStep, h]

/-- C8 counterexample: a fresh snapshot that differs from the last pushed one
only in its sender field is a different snapshot, yet `infoChanged` is
false and the visible-iframe auto-refresh step performs no push — the
claimed differs-in-any-field condition would require a push. -/
theorem infoChanged_ignores_sender :
    infoChanged (some ⟨"singleEmail", "alice", "d", "s", "b"⟩)
        ⟨"singleEmail", "bob", "d", "s", "b"⟩ = false ∧
    (⟨"singleEmail", "bob", "d", "s", "b"⟩ : GmailInfo) ≠
      ⟨"singleEmail", "alice", "d", "s", "b"⟩ ∧
    (autoRefreshStep true (some ⟨"singleEmail", "alice", "d", "s", "b"⟩)
        ⟨"singleEmail", "bob", "d", "s", "b"⟩).2 = false :=
  ⟨by decide, by decide, by decide⟩

/-- C8 amended: while the iframe is visible, the freshly extracted snapshot is
re-pushed iff it differs from the previously pushed snapshot in subject,
date or body (page and sender are not compared); when nothing was pushed
yet, the push happens iff the iframe is visible. -/
theorem autoRefresh_push_iff_subject_date_body (vis : Bool) (l n : GmailInfo) :
    ((autoRefreshStep vis (some l) n).2 = true ↔
      vis = true ∧ (n.subject ≠ l.subject ∨ n.date ≠ l.date ∨ n.body ≠ l.body)) ∧
    (autoRefreshStep vis none n).2 = vis := by
  constructor
  · rw [autoRefreshStep_snd]
    simp [infoChanged, bne_iff_ne]
    tauto
  · rw [autoRefreshStep_snd]
    simp [infoChanged]

end Automail
